import Mathlib

/-!
Shallow embedding of the client-side subscription/payment flow implemented by the
`NewSubscription` component in `src/src/lib/axios.ts`.

Modelling conventions:
- the React `useState` cells become the fields of `ComponentState`;
- `localStorage` under the key "payments" becomes `StoredLedger`; the outcome of
  `JSON.parse(localStorage.getItem("payments") || "[]")` is `parseLedger`
  (`invalid` models a stored string that is not valid JSON, where `JSON.parse`
  throws);
- each network call takes the server's eventual response as an explicit
  `Except AxiosError` argument, and the request that was issued is recorded in
  the returned `Effects`;
- `toast.success` / `toast.error`, `window.dispatchEvent` and router
  `navigate(..)` calls are recorded in `Effects` as well;
- timestamps are milliseconds since the epoch (`Nat`); `Date.now()` is the
  explicit `now` argument and "+ 30 days" is `30 * msPerDay`.
-/

set_option autoImplicit false

namespace CustomerPortal

/-- JavaScript `String.prototype.trim`: strip whitespace from both ends. -/
def jsTrim (s : String) : String :=
  String.mk (((s.data.dropWhile Char.isWhitespace).reverse.dropWhile Char.isWhitespace).reverse)

/-- JavaScript `a || b` for an optional string `a`: yields `b` when `a` is
absent (`undefined`) or the empty string (both falsy), else the value of `a`. -/
def jsOr (a : Option String) (b : String) : String :=
  match a with
  | none => b
  | some v => if v.isEmpty then b else v

/-- The `Publication` interface of the source file. -/
structure Publication where
  _id : String
  name : String
  language : String
  monthlyPrice : Nat
  deriving DecidableEq

/-- The inline `publication: { _id: string }` reference inside `Subscription`. -/
structure PublicationRef where
  _id : String
  deriving DecidableEq

/-- The `Subscription` interface of the source file. -/
structure Subscription where
  publication : PublicationRef
  customerName : String
  deriving DecidableEq

/-- The shape of the `newPayment` object built in `handlePayNow`; dates are
epoch milliseconds standing for the ISO strings of the source. -/
structure PaymentRecord where
  id : String
  subscriptionName : String
  amount : Nat
  dueDate : Nat
  status : String
  paidDate : Nat
  deriving DecidableEq

/-- The `paymentMethod` state cell (`"qr" | "cod"`). -/
inductive PaymentMethod where
  | qr
  | cod
  deriving DecidableEq

/-- The `useState` cells of the `NewSubscription` component. -/
structure ComponentState where
  publications : List Publication
  subscriptions : List Subscription
  selectedPub : Option Publication
  showModal : Bool
  customerNameInput : String
  paymentMethod : PaymentMethod
  loading : Bool
  deriving DecidableEq

/-- The initial values passed to `useState` in the component. -/
def initialState : ComponentState :=
  { publications := []
    subscriptions := []
    selectedPub := none
    showModal := false
    customerNameInput := ""
    paymentMethod := .qr
    loading := false }

/-- A `toast.success` or `toast.error` call, with its message. -/
inductive Toast where
  | success (msg : String)
  | error (msg : String)
  deriving DecidableEq

/-- A network request issued to the remote gateway, identified by endpoint and
the data the component put into it (query parameter, or POST body fields). -/
inductive Request where
  | getPublications
  | getSubscriptions (customerName : String)
  | postSubscribe (customerName : String) (publicationId : String) (amount : Nat)
  deriving DecidableEq

/-- Observable side effects of one handler run: requests issued, toasts shown,
window events dispatched, router navigations performed, in order per kind. -/
structure Effects where
  requests : List Request := []
  toasts : List Toast := []
  events : List String := []
  navigations : List String := []
  deriving DecidableEq

/-- No side effects. -/
def noEffects : Effects := {}

/-- Concatenation of the effects of two consecutive phases. -/
def Effects.append (a b : Effects) : Effects :=
  { requests := a.requests ++ b.requests
    toasts := a.toasts ++ b.toasts
    events := a.events ++ b.events
    navigations := a.navigations ++ b.navigations }

/-- The value stored in `localStorage` under the key "payments": absent, a
valid JSON serialization of a list of payment records, or a string that is not
valid JSON. -/
inductive StoredLedger where
  | absent
  | valid (records : List PaymentRecord)
  | invalid
  deriving DecidableEq

/-- Outcome of `JSON.parse(localStorage.getItem("payments") || "[]")`:
`none` models the `SyntaxError` thrown on a stored string that is not valid
JSON. -/
def parseLedger : StoredLedger → Option (List PaymentRecord)
  | .absent => some []
  | .valid records => some records
  | .invalid => none

/-- An axios rejection as the handlers consume it: `message` is the value of
the optional chain `error.response?.data?.message` (absent when there is no
HTTP response, e.g. for a network failure or a locally thrown exception). -/
structure AxiosError where
  message : Option String
  deriving DecidableEq

/-- The `fetchPublications` handler.  `response` is the settled result of
`axios.get(API_BASE + "/customer/publications")`; its payload is optional
because the source guards with `response.data || []`. -/
def fetchPublications (response : Except AxiosError (Option (List Publication)))
    (s : ComponentState) : ComponentState × Effects :=
  match response with
  | .ok data =>
      ({ s with publications := data.getD [] },
       { requests := [.getPublications] })
  | .error e =>
      (s,
       { requests := [.getPublications]
         toasts := [.error (jsOr e.message "Failed to fetch available publications")] })

/-- The `fetchSubscriptions` handler.  When the trimmed name is empty it clears
the subscribed set and returns without touching the network; otherwise it
issues the lookup and, on success, replaces the subscribed set with
`response.data || []`, while on failure it only shows a toast. -/
def fetchSubscriptions (name : String)
    (response : Except AxiosError (Option (List Subscription)))
    (s : ComponentState) : ComponentState × Effects :=
  if (jsTrim name).isEmpty then
    ({ s with subscriptions := [] }, noEffects)
  else
    match response with
    | .ok data =>
        ({ s with subscriptions := data.getD [] },
         { requests := [.getSubscriptions name] })
    | .error e =>
        (s,
         { requests := [.getSubscriptions name]
           toasts := [.error (jsOr e.message "Failed to fetch subscriptions")] })

/-- The `handleSubscribeClick` handler: select a publication and open the
modal. -/
def handleSubscribeClick (pub : Publication) (s : ComponentState) : ComponentState :=
  { s with selectedPub := some pub, showModal := true }

/-- Milliseconds in one day. -/
def msPerDay : Nat := 86400000

/-- The `newPayment` object built in `handlePayNow` after a successful POST:
id is `Date.now().toString()`, due date is creation time + 30 days, status is
"paid", paid date is creation time. -/
def newPayment (now : Nat) (pub : Publication) : PaymentRecord :=
  { id := toString now
    subscriptionName := pub.name
    amount := pub.monthlyPrice
    dueDate := now + 30 * msPerDay
    status := "paid"
    paidDate := now }

/-- Result of the synchronous prefix of `handlePayNow`, up to the `await` of
the POST: either one of the early returns, or the in-flight state (loading set,
POST issued) together with the selected publication. -/
inductive StartOutcome where
  | earlyReturn (s : ComponentState) (eff : Effects)
  | inFlight (s : ComponentState) (pub : Publication) (eff : Effects)
  deriving DecidableEq

/-- Synchronous prefix of `handlePayNow`: the empty-name guard (toast, no
request), the missing-selection guard (silent return), then `setLoading(true)`
and the POST of the trimmed name, the selected publication id and its monthly
price. -/
def handlePayNowStart (s : ComponentState) : StartOutcome :=
  if (jsTrim s.customerNameInput).isEmpty then
    .earlyReturn s { toasts := [.error "Please enter your name"] }
  else
    match s.selectedPub with
    | none => .earlyReturn s noEffects
    | some pub =>
        .inFlight { s with loading := true } pub
          { requests := [.postSubscribe (jsTrim s.customerNameInput) pub._id pub.monthlyPrice] }

/-- Resumption of `handlePayNow` once the POST settles.  On rejection, the
`catch` branch shows the server message or "Subscription failed".  On success
it re-reads the stored ledger; if that parse throws, the same `catch` branch
runs with a `SyntaxError` (no `response` field, hence the generic message).
Otherwise it appends the new record, writes the ledger back, dispatches
"billsUpdated", shows the success toast, closes the modal, re-runs
`fetchSubscriptions` on the raw (untrimmed) input, and navigates to
"/payments".  The `finally` clause resets `loading` in every branch. -/
def handlePayNowSettle (now : Nat) (pub : Publication)
    (postResult : Except AxiosError Unit)
    (lookupResponse : Except AxiosError (Option (List Subscription)))
    (s : ComponentState) (ledger : StoredLedger) :
    ComponentState × StoredLedger × Effects :=
  match postResult with
  | .error e =>
      ({ s with loading := false }, ledger,
       { toasts := [.error (jsOr e.message "Subscription failed")] })
  | .ok _ =>
      match parseLedger ledger with
      | none =>
          ({ s with loading := false }, ledger,
           { toasts := [.error "Subscription failed"] })
      | some existingPayments =>
          let ledger' := StoredLedger.valid (existingPayments ++ [newPayment now pub])
          let lookupRun :=
            fetchSubscriptions s.customerNameInput lookupResponse { s with showModal := false }
          ({ lookupRun.1 with loading := false }, ledger',
           { requests := lookupRun.2.requests
             toasts := Toast.success ("Subscribed to " ++ pub.name ++ " successfully!")
               :: lookupRun.2.toasts
             events := ["billsUpdated"]
             navigations := ["/payments"] })

/-- The whole `handlePayNow` handler: the synchronous prefix followed, when the
POST was issued, by the settled continuation. -/
def handlePayNow (now : Nat) (postResult : Except AxiosError Unit)
    (lookupResponse : Except AxiosError (Option (List Subscription)))
    (s : ComponentState) (ledger : StoredLedger) :
    ComponentState × StoredLedger × Effects :=
  match handlePayNowStart s with
  | .earlyReturn s' eff => (s', ledger, eff)
  | .inFlight s' pub eff =>
      let settled := handlePayNowSettle now pub postResult lookupResponse s' ledger
      (settled.1, settled.2.1, eff.append settled.2.2)

/-- The `isSubscribed` predicate: some entry of the subscribed set references
the given publication id. -/
def isSubscribed (subscriptions : List Subscription) (pubId : String) : Bool :=
  subscriptions.any fun sub => sub.publication._id == pubId

/-- The `disabled` attribute of the Pay Now button:
`loading || isSubscribed(selectedPub._id)`. -/
def payNowDisabled (s : ComponentState) (pubId : String) : Bool :=
  s.loading || isSubscribed s.subscriptions pubId

/-- The label of the Pay Now button: "Processing..." while loading, else
"Already Subscribed" when the dedup guard fires, else "Pay Now". -/
def payNowLabel (s : ComponentState) (pubId : String) : String :=
  if s.loading then "Processing..."
  else if isSubscribed s.subscriptions pubId then "Already Subscribed"
  else "Pay Now"

/-- A sample publication used by concrete counterexamples and witnesses. -/
def demoPub : Publication :=
  { _id := "p1", name := "Daily Times", language := "English", monthlyPrice := 100 }

/-- A sample subscription referencing `demoPub`. -/
def demoSub : Subscription :=
  { publication := { _id := "p1" }, customerName := "Asha" }

/-- C4: for every input name whose trimmed value is empty, Subscription Lookup
sets the subscribed set to the empty sequence synchronously and issues no
network call (the returned effects are exactly none). -/
theorem lookup_empty_name_clears_without_request
    (name : String) (response : Except AxiosError (Option (List Subscription)))
    (s : ComponentState)
    (h : (jsTrim name).isEmpty = true) :
    fetchSubscriptions name response s = ({ s with subscriptions := [] }, noEffects) := by
  simp [fetchSubscriptions, h]

/-- Witness for C4 at the concrete whitespace-only name "   ". -/
theorem lookup_empty_name_clears_without_request_witness :
    fetchSubscriptions "   " (.ok none) { initialState with subscriptions := [demoSub] } =
      ({ { initialState with subscriptions := [demoSub] } with subscriptions := [] }, noEffects) :=
  lookup_empty_name_clears_without_request "   " (.ok none)
    { initialState with subscriptions := [demoSub] } (by decide)

/-- C7: a Subscription Lookup whose trimmed name is non-empty and whose fetch
fails shows a notification and leaves the component state, in particular the
subscribed set, exactly at its prior value. -/
theorem lookup_failure_shows_toast_preserves_state
    (name : String) (e : AxiosError) (s : ComponentState)
    (h : (jsTrim name).isEmpty = false) :
    fetchSubscriptions name (.error e) s =
      (s, { requests := [.getSubscriptions name]
            toasts := [.error (jsOr e.message "Failed to fetch subscriptions")] }) := by
  simp [fetchSubscriptions, h]

/-- Witness for C7 at the concrete name "Asha" with a message-less failure. -/
theorem lookup_failure_shows_toast_preserves_state_witness :
    fetchSubscriptions "Asha" (.error { message := none })
        { initialState with subscriptions := [demoSub] } =
      ({ initialState with subscriptions := [demoSub] },
       { requests := [.getSubscriptions "Asha"]
         toasts := [.error "Failed to fetch subscriptions"] }) :=
  lookup_failure_shows_toast_preserves_state "Asha" { message := none }
    { initialState with subscriptions := [demoSub] } (by decide)

/-- C3 (amended): the dedup guard returns true iff some entry of the current
subscribed set references the publication id; whenever it is true for the
selected publication the Pay Now control is disabled, and it is relabeled
"Already Subscribed" whenever no submission is in flight (while loading the
label reads "Processing..." instead). -/
theorem isSubscribed_iff_and_gates_control
    (subs : List Subscription) (pid : String) (s : ComponentState) :
    (isSubscribed subs pid = true ↔ ∃ sub ∈ subs, sub.publication._id = pid) ∧
    (isSubscribed s.subscriptions pid = true → payNowDisabled s pid = true) ∧
    (isSubscribed s.subscriptions pid = true → s.loading = false →
      payNowLabel s pid = "Already Subscribed") := by
  refine ⟨?_, ?_, ?_⟩
  · simp [isSubscribed, List.any_eq_true, beq_iff_eq]
  · intro h
    simp [payNowDisabled, h]
  · intro h hl
    simp [payNowLabel, h, hl]

/-- Witness for C3 (amended) at a concrete idle state whose subscribed set
contains the selected publication. -/
theorem isSubscribed_iff_and_gates_control_witness :
    payNowDisabled { initialState with subscriptions := [demoSub] } "p1" = true ∧
    payNowLabel { initialState with subscriptions := [demoSub] } "p1" = "Already Subscribed" :=
  ⟨(isSubscribed_iff_and_gates_control [demoSub] "p1"
      { initialState with subscriptions := [demoSub] }).2.1 (by decide),
   (isSubscribed_iff_and_gates_control [demoSub] "p1"
      { initialState with subscriptions := [demoSub] }).2.2 (by decide) rfl⟩

/-- A dialog state with the selected publication already subscribed and a
submission in flight (loading = true), as produced when a lookup response
arrives while a POST is pending. -/
def loadingSubscribedState : ComponentState :=
  { initialState with
    loading := true
    selectedPub := some demoPub
    showModal := true
    subscriptions := [demoSub] }

/-- C3 counterexample: with a submission in flight (loading = true) and the
selected publication already in the subscribed set, the dedup guard returns
true and the control is disabled, but the label is "Processing...", not
"Already Subscribed". -/
theorem isSubscribed_not_relabeled_while_loading :
    isSubscribed loadingSubscribedState.subscriptions "p1" = true ∧
    payNowDisabled loadingSubscribedState "p1" = true ∧
    payNowLabel loadingSubscribedState "p1" = "Processing..." ∧
    payNowLabel loadingSubscribedState "p1" ≠ "Already Subscribed" := by
  decide

/-- A dialog state ready to submit: name "Asha", `demoPub` selected. -/
def payState : ComponentState :=
  { initialState with
    customerNameInput := "Asha"
    selectedPub := some demoPub
    showModal := true }

/-- Helper: under the submit preconditions (non-empty trimmed name, selected
publication) the synchronous prefix of `handlePayNow` goes in flight: loading
is set and the POST of the trimmed name, publication id and price is issued. -/
theorem handlePayNowStart_submits (s : ComponentState) (pub : Publication)
    (hname : (jsTrim s.customerNameInput).isEmpty = false)
    (hsel : s.selectedPub = some pub) :
    handlePayNowStart s = .inFlight { s with loading := true } pub
      { requests := [.postSubscribe (jsTrim s.customerNameInput) pub._id pub.monthlyPrice] } := by
  simp [handlePayNowStart, hname, hsel]

/-- Helper: the settled continuation after a successful POST over a parsable
stored ledger, written out explicitly. -/
theorem handlePayNowSettle_ok (now : Nat) (pub : Publication)
    (lookupResponse : Except AxiosError (Option (List Subscription)))
    (s : ComponentState) (ledger : StoredLedger)
    (existing : List PaymentRecord)
    (hparse : parseLedger ledger = some existing) :
    handlePayNowSettle now pub (.ok ()) lookupResponse s ledger =
      ({ (fetchSubscriptions s.customerNameInput lookupResponse
            { s with showModal := false }).1 with loading := false },
       .valid (existing ++ [newPayment now pub]),
       { requests := (fetchSubscriptions s.customerNameInput lookupResponse
            { s with showModal := false }).2.requests
         toasts := Toast.success ("Subscribed to " ++ pub.name ++ " successfully!")
           :: (fetchSubscriptions s.customerNameInput lookupResponse
                { s with showModal := false }).2.toasts
         events := ["billsUpdated"]
         navigations := ["/payments"] }) := by
  unfold handlePayNowSettle
  rw [hparse]

/-- C1 (amended): a subscribe whose POST succeeds — selected publication,
trimmed non-empty name — and whose stored ledger parses appends exactly one
PaymentRecord at the end of the ledger, carrying the publication's display
name, its monthly price, status "paid", due date = creation time + 30 days and
paid date = creation time; every pre-existing entry is kept in place and in
order, the ledger's length grows by exactly 1, and exactly one ledger-changed
("billsUpdated") event is dispatched. -/
theorem subscribe_success_appends_exactly_one
    (now : Nat) (s : ComponentState) (ledger : StoredLedger)
    (existing : List PaymentRecord) (pub : Publication)
    (lookupResponse : Except AxiosError (Option (List Subscription)))
    (hname : (jsTrim s.customerNameInput).isEmpty = false)
    (hsel : s.selectedPub = some pub)
    (hparse : parseLedger ledger = some existing) :
    (handlePayNow now (.ok ()) lookupResponse s ledger).2.1 =
        StoredLedger.valid (existing ++ [newPayment now pub]) ∧
    parseLedger (handlePayNow now (.ok ()) lookupResponse s ledger).2.1 =
        some (existing ++ [newPayment now pub]) ∧
    (existing ++ [newPayment now pub]).length = existing.length + 1 ∧
    (newPayment now pub).subscriptionName = pub.name ∧
    (newPayment now pub).amount = pub.monthlyPrice ∧
    (newPayment now pub).status = "paid" ∧
    (newPayment now pub).dueDate = now + 30 * msPerDay ∧
    (newPayment now pub).paidDate = now ∧
    (handlePayNow now (.ok ()) lookupResponse s ledger).2.2.events = ["billsUpdated"] := by
  have hstart := handlePayNowStart_submits s pub hname hsel
  have hsettle := handlePayNowSettle_ok now pub lookupResponse
    { s with loading := true } ledger existing hparse
  simp [handlePayNow, hstart, hsettle, Effects.append, parseLedger, newPayment]

/-- Witness for C1 (amended): scenario A — empty prior ledger, name "Asha",
the demo publication, POST succeeds at time 1000. -/
theorem subscribe_success_appends_exactly_one_witness :
    (handlePayNow 1000 (.ok ()) (.ok (some [demoSub])) payState .absent).2.1 =
        StoredLedger.valid ([] ++ [newPayment 1000 demoPub]) ∧
    parseLedger (handlePayNow 1000 (.ok ()) (.ok (some [demoSub])) payState .absent).2.1 =
        some ([] ++ [newPayment 1000 demoPub]) ∧
    ([] ++ [newPayment 1000 demoPub]).length = List.length ([] : List PaymentRecord) + 1 ∧
    (newPayment 1000 demoPub).subscriptionName = demoPub.name ∧
    (newPayment 1000 demoPub).amount = demoPub.monthlyPrice ∧
    (newPayment 1000 demoPub).status = "paid" ∧
    (newPayment 1000 demoPub).dueDate = 1000 + 30 * msPerDay ∧
    (newPayment 1000 demoPub).paidDate = 1000 ∧
    (handlePayNow 1000 (.ok ()) (.ok (some [demoSub])) payState .absent).2.2.events =
        ["billsUpdated"] :=
  subscribe_success_appends_exactly_one 1000 payState .absent [] demoPub
    (.ok (some [demoSub])) (by decide) rfl rfl

/-- C2: a subscribe whose POST fails leaves the ledger unchanged, emits no
ledger-changed event, keeps the dialog in its prior open/closed state (only
loading is reset), and shows exactly one error toast whose text is the
server's message when present (non-empty), else the generic
"Subscription failed". -/
theorem subscribe_failure_leaves_ledger_and_dialog
    (now : Nat) (s : ComponentState) (ledger : StoredLedger) (e : AxiosError)
    (lookupResponse : Except AxiosError (Option (List Subscription))) (pub : Publication)
    (hname : (jsTrim s.customerNameInput).isEmpty = false)
    (hsel : s.selectedPub = some pub) :
    (handlePayNow now (.error e) lookupResponse s ledger).2.1 = ledger ∧
    (handlePayNow now (.error e) lookupResponse s ledger).2.2.events = [] ∧
    (handlePayNow now (.error e) lookupResponse s ledger).1 = { s with loading := false } ∧
    (handlePayNow now (.error e) lookupResponse s ledger).1.showModal = s.showModal ∧
    (handlePayNow now (.error e) lookupResponse s ledger).2.2.toasts =
      [.error (jsOr e.message "Subscription failed")] ∧
    (∀ m, e.message = some m → m.isEmpty = false → jsOr e.message "Subscription failed" = m) ∧
    (e.message = none → jsOr e.message "Subscription failed" = "Subscription failed") := by
  refine ⟨?_, ?_, ?_, ?_, ?_, ?_, ?_⟩
  · simp [handlePayNow, handlePayNowStart, handlePayNowSettle, hname, hsel]
  · simp [handlePayNow, handlePayNowStart, handlePayNowSettle, hname, hsel, Effects.append]
  · simp [handlePayNow, handlePayNowStart, handlePayNowSettle, hname, hsel]
  · simp [handlePayNow, handlePayNowStart, handlePayNowSettle, hname, hsel]
  · simp [handlePayNow, handlePayNowStart, handlePayNowSettle, hname, hsel, Effects.append]
  · intro m hm hme
    simp [jsOr, hm, hme]
  · intro hm
    simp [jsOr, hm]

/-- Witness for C2: scenario C — the POST fails with server message
"Already active". -/
theorem subscribe_failure_leaves_ledger_and_dialog_witness :
    (handlePayNow 0 (.error { message := some "Already active" }) (.ok none)
        payState (.valid [newPayment 5 demoPub])).2.1 = .valid [newPayment 5 demoPub] ∧
    (handlePayNow 0 (.error { message := some "Already active" }) (.ok none)
        payState (.valid [newPayment 5 demoPub])).2.2.events = [] ∧
    (handlePayNow 0 (.error { message := some "Already active" }) (.ok none)
        payState (.valid [newPayment 5 demoPub])).1 = { payState with loading := false } ∧
    (handlePayNow 0 (.error { message := some "Already active" }) (.ok none)
        payState (.valid [newPayment 5 demoPub])).1.showModal = payState.showModal ∧
    (handlePayNow 0 (.error { message := some "Already active" }) (.ok none)
        payState (.valid [newPayment 5 demoPub])).2.2.toasts =
      [.error (jsOr (some "Already active") "Subscription failed")] ∧
    (∀ m, (some "Already active" : Option String) = some m → m.isEmpty = false →
      jsOr (some "Already active") "Subscription failed" = m) ∧
    ((some "Already active" : Option String) = none →
      jsOr (some "Already active") "Subscription failed" = "Subscription failed") :=
  subscribe_failure_leaves_ledger_and_dialog 0 payState (.valid [newPayment 5 demoPub])
    { message := some "Already active" } (.ok none) demoPub (by decide) rfl

/-- C10: when the stored "payments" value is not valid JSON, a subscribe whose
POST succeeded still runs the catch branch: the generic "Subscription failed"
toast is shown, the ledger is not written, no ledger-changed event fires and
the dialog keeps its prior open state — although the POST (recorded in the
requests) was accepted by the server. -/
theorem invalid_ledger_masks_successful_post
    (now : Nat) (s : ComponentState) (pub : Publication)
    (lookupResponse : Except AxiosError (Option (List Subscription)))
    (hname : (jsTrim s.customerNameInput).isEmpty = false)
    (hsel : s.selectedPub = some pub) :
    (handlePayNow now (.ok ()) lookupResponse s .invalid).2.1 = .invalid ∧
    (handlePayNow now (.ok ()) lookupResponse s .invalid).2.2.events = [] ∧
    (handlePayNow now (.ok ()) lookupResponse s .invalid).2.2.toasts =
      [.error "Subscription failed"] ∧
    (handlePayNow now (.ok ()) lookupResponse s .invalid).2.2.requests =
      [.postSubscribe (jsTrim s.customerNameInput) pub._id pub.monthlyPrice] ∧
    (handlePayNow now (.ok ()) lookupResponse s .invalid).1 = { s with loading := false } ∧
    (handlePayNow now (.ok ()) lookupResponse s .invalid).1.showModal = s.showModal := by
  refine ⟨?_, ?_, ?_, ?_, ?_, ?_⟩ <;>
    simp [handlePayNow, handlePayNowStart, handlePayNowSettle, hname, hsel,
          Effects.append, parseLedger]

/-- Witness for C10: the dialog state with name "Asha" and the demo
publication over an unparsable stored ledger. -/
theorem invalid_ledger_masks_successful_post_witness :
    (handlePayNow 7 (.ok ()) (.ok none) payState .invalid).2.1 = .invalid ∧
    (handlePayNow 7 (.ok ()) (.ok none) payState .invalid).2.2.events = [] ∧
    (handlePayNow 7 (.ok ()) (.ok none) payState .invalid).2.2.toasts =
      [.error "Subscription failed"] ∧
    (handlePayNow 7 (.ok ()) (.ok none) payState .invalid).2.2.requests =
      [.postSubscribe (jsTrim payState.customerNameInput) demoPub._id demoPub.monthlyPrice] ∧
    (handlePayNow 7 (.ok ()) (.ok none) payState .invalid).1 =
      { payState with loading := false } ∧
    (handlePayNow 7 (.ok ()) (.ok none) payState .invalid).1.showModal = payState.showModal :=
  invalid_ledger_masks_successful_post 7 payState demoPub (.ok none) (by decide) rfl

/-- C1 counterexample: at an unparsable stored ledger the POST succeeds yet no
record is appended and no ledger-changed event is emitted, so the claim's
unconditional form fails. -/
theorem subscribe_success_no_append_on_invalid_ledger :
    (handlePayNow 1000 (.ok ()) (.ok (some [])) payState .invalid).2.1 = .invalid ∧
    (handlePayNow 1000 (.ok ()) (.ok (some [])) payState .invalid).2.2.events = [] := by
  decide

/-- A state with a non-empty name but no selected publication. -/
def noSelectionState : ComponentState :=
  { initialState with customerNameInput := "Asha" }

/-- C5 counterexample: with a non-empty name but no publication selected, the
handler issues no network call but also shows no user-visible validation
message — it returns completely silently. -/
theorem no_selection_returns_silently :
    (handlePayNow 0 (.ok ()) (.ok none) noSelectionState .absent).2.2.toasts = [] ∧
    (handlePayNow 0 (.ok ()) (.ok none) noSelectionState .absent).2.2.requests = [] ∧
    handlePayNow 0 (.ok ()) (.ok none) noSelectionState .absent =
      (noSelectionState, .absent, noEffects) := by
  decide

/-- C5 (amended): precondition violations never reach the network and leave
state and ledger unchanged; an empty trimmed name shows the validation toast
"Please enter your name", while a missing selection (with a non-empty name)
returns silently with no message at all. -/
theorem precondition_violation_no_network
    (now : Nat) (postResult : Except AxiosError Unit)
    (lookupResponse : Except AxiosError (Option (List Subscription)))
    (s : ComponentState) (ledger : StoredLedger) :
    ((jsTrim s.customerNameInput).isEmpty = true →
      handlePayNow now postResult lookupResponse s ledger =
        (s, ledger, { toasts := [.error "Please enter your name"] })) ∧
    ((jsTrim s.customerNameInput).isEmpty = false → s.selectedPub = none →
      handlePayNow now postResult lookupResponse s ledger = (s, ledger, noEffects)) := by
  constructor
  · intro h
    simp [handlePayNow, handlePayNowStart, h]
  · intro h hsel
    simp [handlePayNow, handlePayNowStart, h, hsel, noEffects]

/-- Witness for C5 (amended) at the initial state, whose name trims to the
empty string. -/
theorem precondition_violation_no_network_witness :
    handlePayNow 0 (.ok ()) (.ok none) initialState .absent =
      (initialState, .absent, { toasts := [.error "Please enter your name"] }) :=
  (precondition_violation_no_network 0 (.ok ()) (.ok none) initialState .absent).1 (by decide)

/-- A dialog state whose name input carries surrounding whitespace. -/
def untrimmedPayState : ComponentState :=
  { initialState with
    customerNameInput := " Asha "
    selectedPub := some demoPub
    showModal := true }

/-- C6 counterexample: with input " Asha " the POST carries the trimmed name
"Asha", but the follow-up lookup is issued for the raw input " Asha ", which
is not the name that was submitted to the server. -/
theorem lookup_rerun_uses_untrimmed_input :
    (handlePayNow 0 (.ok ()) (.ok (some [])) untrimmedPayState .absent).2.2.requests =
      [.postSubscribe "Asha" "p1" 100, .getSubscriptions " Asha "] ∧
    (" Asha " : String) ≠ "Asha" := by
  decide

/-- C6 (amended): every subscribe submission that reaches the network POSTs
exactly the body {customerName = trimmed name, publicationId = the selected
publication's id, amount = its monthlyPrice}; on success over a parsable
ledger it re-runs Subscription Lookup with the raw input-field value — which
equals the name submitted to the server exactly when the input carries no
surrounding whitespace. -/
theorem subscribe_posts_trimmed_then_reruns_lookup_on_raw_input
    (now : Nat) (s : ComponentState) (pub : Publication)
    (existing : List PaymentRecord) (ledger : StoredLedger)
    (lookupResponse : Except AxiosError (Option (List Subscription)))
    (hname : (jsTrim s.customerNameInput).isEmpty = false)
    (hsel : s.selectedPub = some pub)
    (hparse : parseLedger ledger = some existing) :
    (handlePayNow now (.ok ()) lookupResponse s ledger).2.2.requests =
      [.postSubscribe (jsTrim s.customerNameInput) pub._id pub.monthlyPrice,
       .getSubscriptions s.customerNameInput] := by
  have hstart := handlePayNowStart_submits s pub hname hsel
  have hsettle := handlePayNowSettle_ok now pub lookupResponse
    { s with loading := true } ledger existing hparse
  cases lookupResponse with
  | ok data => simp [handlePayNow, hstart, hsettle, Effects.append, fetchSubscriptions, hname]
  | error e => simp [handlePayNow, hstart, hsettle, Effects.append, fetchSubscriptions, hname]

/-- Witness for C6 (amended) at the whitespace-free input "Asha". -/
theorem subscribe_posts_trimmed_then_reruns_lookup_on_raw_input_witness :
    (handlePayNow 3 (.ok ()) (.ok (some [demoSub])) payState .absent).2.2.requests =
      [.postSubscribe (jsTrim payState.customerNameInput) demoPub._id demoPub.monthlyPrice,
       .getSubscriptions payState.customerNameInput] :=
  subscribe_posts_trimmed_then_reruns_lookup_on_raw_input 3 payState demoPub [] .absent
    (.ok (some [demoSub])) (by decide) rfl rfl

/-- C8: every network call is guarded; on any error it is converted to one
error notification plus a safe fallback — a failed catalog fetch leaves the
publications unchanged (hence empty at the initial state, where the fetch
runs), a failed lookup preserves the whole state including the subscribed set,
and a failed subscribe POST leaves the ledger untouched, dispatches nothing
and re-enables the submit control by resetting loading. -/
theorem network_failures_are_guarded
    (e : AxiosError) (name : String) (s : ComponentState) (now : Nat)
    (pub : Publication)
    (lookupResponse : Except AxiosError (Option (List Subscription)))
    (ledger : StoredLedger)
    (hn : (jsTrim name).isEmpty = false)
    (hname : (jsTrim s.customerNameInput).isEmpty = false)
    (hsel : s.selectedPub = some pub) :
    ((fetchPublications (.error e) s).1.publications = s.publications ∧
     (fetchPublications (.error e) initialState).1.publications = [] ∧
     (fetchPublications (.error e) s).2.toasts =
       [.error (jsOr e.message "Failed to fetch available publications")]) ∧
    ((fetchSubscriptions name (.error e) s).1 = s ∧
     (fetchSubscriptions name (.error e) s).2.toasts =
       [.error (jsOr e.message "Failed to fetch subscriptions")]) ∧
    ((handlePayNow now (.error e) lookupResponse s ledger).2.1 = ledger ∧
     (handlePayNow now (.error e) lookupResponse s ledger).2.2.events = [] ∧
     (handlePayNow now (.error e) lookupResponse s ledger).1.loading = false ∧
     (handlePayNow now (.error e) lookupResponse s ledger).2.2.toasts =
       [.error (jsOr e.message "Subscription failed")]) := by
  have hstart := handlePayNowStart_submits s pub hname hsel
  refine ⟨⟨?_, ?_, ?_⟩, ⟨?_, ?_⟩, ?_, ?_, ?_, ?_⟩ <;>
    simp [fetchPublications, fetchSubscriptions, hn, handlePayNow, hstart,
          handlePayNowSettle, Effects.append, initialState]

/-- Witness for C8 at a concrete message-less error over the ready-to-submit
state. -/
theorem network_failures_are_guarded_witness :
    ((fetchPublications (.error { message := none }) payState).1.publications =
       payState.publications ∧
     (fetchPublications (.error { message := none }) initialState).1.publications = [] ∧
     (fetchPublications (.error { message := none }) payState).2.toasts =
       [.error (jsOr none "Failed to fetch available publications")]) ∧
    ((fetchSubscriptions "Asha" (.error { message := none }) payState).1 = payState ∧
     (fetchSubscriptions "Asha" (.error { message := none }) payState).2.toasts =
       [.error (jsOr none "Failed to fetch subscriptions")]) ∧
    ((handlePayNow 2 (.error { message := none }) (.ok none) payState .absent).2.1 = .absent ∧
     (handlePayNow 2 (.error { message := none }) (.ok none) payState .absent).2.2.events = [] ∧
     (handlePayNow 2 (.error { message := none }) (.ok none) payState .absent).1.loading =
       false ∧
     (handlePayNow 2 (.error { message := none }) (.ok none) payState .absent).2.2.toasts =
       [.error (jsOr none "Subscription failed")]) :=
  network_failures_are_guarded { message := none } "Asha" payState 2 demoPub (.ok none)
    .absent (by decide) (by decide) rfl

/-- C9: under the submit preconditions the synchronous prefix of the handler
puts the component in flight with loading = true, in which state the Pay Now
control is disabled for every publication id — so no second submission can be
started from the dialog — and however the POST settles, success or failure,
the continuation resets loading to false. -/
theorem inflight_disables_second_submission_and_settle_resets
    (s : ComponentState) (pub : Publication) (now : Nat)
    (postResult : Except AxiosError Unit)
    (lookupResponse : Except AxiosError (Option (List Subscription)))
    (ledger : StoredLedger)
    (hname : (jsTrim s.customerNameInput).isEmpty = false)
    (hsel : s.selectedPub = some pub) :
    handlePayNowStart s = .inFlight { s with loading := true } pub
      { requests := [.postSubscribe (jsTrim s.customerNameInput) pub._id pub.monthlyPrice] } ∧
    ({ s with loading := true } : ComponentState).loading = true ∧
    (∀ pid, payNowDisabled { s with loading := true } pid = true) ∧
    (handlePayNowSettle now pub postResult lookupResponse
      { s with loading := true } ledger).1.loading = false := by
  refine ⟨handlePayNowStart_submits s pub hname hsel, rfl, ?_, ?_⟩
  · intro pid
    simp [payNowDisabled]
  · cases postResult with
    | error e => simp [handlePayNowSettle]
    | ok u =>
        cases hp : parseLedger ledger with
        | none => simp [handlePayNowSettle, hp]
        | some existing => simp [handlePayNowSettle, hp]

/-- Witness for C9 at the ready-to-submit state with a successful settle. -/
theorem inflight_disables_second_submission_and_settle_resets_witness :
    handlePayNowStart payState = .inFlight { payState with loading := true } demoPub
      { requests := [.postSubscribe (jsTrim payState.customerNameInput) demoPub._id
          demoPub.monthlyPrice] } ∧
    ({ payState with loading := true } : ComponentState).loading = true ∧
    (∀ pid, payNowDisabled { payState with loading := true } pid = true) ∧
    (handlePayNowSettle 9 demoPub (.ok ()) (.ok (some [demoSub]))
      { payState with loading := true } .absent).1.loading = false :=
  inflight_disables_second_submission_and_settle_resets payState demoPub 9 (.ok ())
    (.ok (some [demoSub])) .absent (by decide) rfl

end CustomerPortal
